import Mathlib

/-!
Verification development for the paper-trading engine.

The definitions below are a shallow embedding of the core modules:

* `src/js/modules/trading/mockTrader.js` (execution engine): account,
  positions, `openMarketOrder`, `closePosition`, slippage, fees,
  per-position P&L and the engine's own trailing rule;
* `src/unnamed/part_002` (trailing-stop engine): strategy-based candidate
  stops and the `shouldUpdateStopLoss` gate;
* `src/js/modules/trading/timeframeValidator.js` (timeframe validator):
  sequential validation, monitoring windows, cancellation, finalization;
* the risk manager (concatenated into `src/js/modules/indicators/rsi.js`):
  risk metrics, risk levels, emergency triggers and emergency actions;
* `src/unnamed/part_003` (signal generator): per-timeframe scoring,
  overall signal and confidence.

JavaScript numbers are modelled as rationals (`ℚ`); JavaScript values that
may be `null`/`undefined` are modelled as `Option`; the JavaScript `x || d`
defaulting idiom (which replaces both missing and falsy values) is modelled
by `jsOr` / `jsOrBool`.  Maps keyed by id are modelled as lists together
with a no-duplicate-ids invariant.
-/

namespace Trading

/-! ## JavaScript defaulting idiom -/

/-- Model of the JavaScript expression `x || d` for numbers: `undefined`
and the falsy number `0` are both replaced by the default. -/
def jsOr (x : Option ℚ) (d : ℚ) : ℚ :=
  match x with
  | none => d
  | some v => if v = 0 then d else v

/-- Model of the JavaScript expression `b || d` for booleans: `undefined`
and `false` are both replaced by the default. -/
def jsOrBool (x : Option Bool) (d : Bool) : Bool :=
  match x with
  | none => d
  | some b => b || d

/-! ## Execution engine data model (mockTrader.js) -/

/-- Position direction (`POSITION_TYPES` in mockTrader.js). -/
inductive Side
  | long
  | short
  deriving DecidableEq

/-- The side string passed to `applySlippage` when closing: the opposite
direction (`position.side === 'long' ? 'short' : 'long'`). -/
def Side.opposite : Side → Side
  | .long => .short
  | .short => .long

/-- Position lifecycle (`POSITION_STATUS`): the source strings are
`'open'`, `'closed'`, `'liquidated'`. -/
inductive PositionStatus
  | opened
  | closed
  | liquidated
  deriving DecidableEq

/-- `mockAccount.fees` substructure. -/
structure Fees where
  enabled : Bool
  maker : ℚ
  taker : ℚ
  deriving DecidableEq

/-- `mockAccount.slippage` substructure. -/
structure Slip where
  enabled : Bool
  percentage : ℚ
  deriving DecidableEq

/-- `position.trailingStop` substructure created by `openMarketOrder`. -/
structure TrailInfo where
  enabled : Bool
  triggerPrice : Option ℚ
  distance : Option ℚ
  highestProfit : ℚ
  deriving DecidableEq

/-- A simulated position, as created by `openMarketOrder` and mutated by
`closePosition` / `updateTrailingStop`. -/
structure Position where
  id : ℕ
  symbol : String
  side : Side
  status : PositionStatus
  size : ℚ
  leverage : ℚ
  entryPrice : ℚ
  currentPrice : ℚ
  notionalValue : ℚ
  marginUsed : ℚ
  stopLoss : ℚ
  takeProfit : Option ℚ
  unrealizedPnL : ℚ
  realizedPnL : ℚ
  fees : ℚ
  totalFees : ℚ
  closeReason : Option String
  exitPrice : Option ℚ
  trailingStop : TrailInfo
  deriving DecidableEq

/-- The mock account (`mockAccount` in mockTrader.js). -/
structure MockAccount where
  balance : ℚ
  equity : ℚ
  margin : ℚ
  freeMargin : ℚ
  marginLevel : ℚ
  maxLeverage : ℚ
  defaultLeverage : ℚ
  fees : Fees
  slippage : Slip
  totalTrades : ℕ
  winningTrades : ℕ
  losingTrades : ℕ
  totalPnL : ℚ
  maxDrawdown : ℚ
  maxBalance : ℚ
  deriving DecidableEq

/-- Optional `config.fees` object read by the account initializer. -/
structure FeesConfig where
  enabled : Option Bool
  maker : Option ℚ
  taker : Option ℚ
  deriving DecidableEq

/-- Optional `config.slippage` object read by the account initializer. -/
structure SlipConfig where
  enabled : Option Bool
  percentage : Option ℚ
  deriving DecidableEq

/-- The `MOCK_TRADING` configuration object. -/
structure MockConfig where
  initialBalance : Option ℚ
  maxLeverage : Option ℚ
  defaultLeverage : Option ℚ
  fees : Option FeesConfig
  slippage : Option SlipConfig
  deriving DecidableEq

/-- The account initializer (`initializeMockAccount` in mockTrader.js).
Every defaulted field uses the JavaScript `||` idiom, in particular
`config.fees?.enabled || true` and `config.slippage?.enabled || true`. -/
def initMockAccount (config : MockConfig) : MockAccount :=
  { balance := jsOr config.initialBalance 10000
    equity := jsOr config.initialBalance 10000
    margin := 0
    freeMargin := jsOr config.initialBalance 10000
    marginLevel := 0
    maxLeverage := jsOr config.maxLeverage 20
    defaultLeverage := jsOr config.defaultLeverage 10
    fees :=
      { enabled := jsOrBool (config.fees.bind (·.enabled)) true
        maker := jsOr (config.fees.bind (·.maker)) 0.02
        taker := jsOr (config.fees.bind (·.taker)) 0.04 }
    slippage :=
      { enabled := jsOrBool (config.slippage.bind (·.enabled)) true
        percentage := jsOr (config.slippage.bind (·.percentage)) 0.1 }
    totalTrades := 0
    winningTrades := 0
    losingTrades := 0
    totalPnL := 0
    maxDrawdown := 0
    maxBalance := jsOr config.initialBalance 10000 }

/-- `applySlippage(price, side)`: directional slippage, worsening the
trader's side; pass-through when slippage simulation is off. -/
def applySlippage (account : MockAccount) (price : ℚ) (side : Side) : ℚ :=
  if !account.slippage.enabled then price
  else
    let slippagePercent := account.slippage.percentage / 100
    match side with
    | .long => price * (1 + slippagePercent)
    | .short => price * (1 - slippagePercent)

/-- Order type for the fee schedule. -/
inductive OrderKind
  | maker
  | taker
  deriving DecidableEq

/-- `calculateFee(notionalValue, orderType)`. -/
def calculateFee (account : MockAccount) (notionalValue : ℚ) (orderKind : OrderKind) : ℚ :=
  if !account.fees.enabled then 0
  else
    let feeRate :=
      match orderKind with
      | .maker => account.fees.maker / 100
      | .taker => account.fees.taker / 100
    notionalValue * feeRate

/-- `calculatePositionPnL(position, currentPrice)`: gross P&L of the
position at the given price. -/
def calculatePositionPnL (position : Position) (currentPrice : ℚ) : ℚ :=
  let priceChange := currentPrice - position.entryPrice
  match position.side with
  | .long => priceChange * position.size
  | .short => -priceChange * position.size

/-- `calculateATRStopLoss(symbol, entryPrice, side)`: ATR-multiple stop
when a 15m ATR value is available, otherwise the flat 2% fallback.  The
ATR value and the configured multiplier are passed in because the data
fetch is external. -/
def calculateATRStopLoss (atr : Option ℚ) (multiplier : ℚ) (entryPrice : ℚ) (side : Side) : ℚ :=
  match atr with
  | some atrValue =>
    match side with
    | .long => entryPrice - atrValue * multiplier
    | .short => entryPrice + atrValue * multiplier
  | none =>
    let fallbackPercent : ℚ := 0.02
    match side with
    | .long => entryPrice * (1 - fallbackPercent)
    | .short => entryPrice * (1 + fallbackPercent)

/-- Whole-engine state: the account, the `activePositions` map (modelled
as a list of positions with distinct ids), the bounded `tradeHistory`
buffer, and the id counter behind `generatePositionId`. -/
structure MockState where
  account : MockAccount
  activePositions : List Position
  tradeHistory : List Position
  nextId : ℕ
  deriving DecidableEq

/-- Fresh engine state produced by `init` / `initializeMockAccount`. -/
def initMockState (config : MockConfig) : MockState :=
  { account := initMockAccount config
    activePositions := []
    tradeHistory := []
    nextId := 0 }

/-- `getCurrentUnrealizedPnL()`: sum of `unrealizedPnL` over the active
positions. -/
def getCurrentUnrealizedPnL (positions : List Position) : ℚ :=
  (positions.map Position.unrealizedPnL).sum

/-- Result of a successful `openMarketOrder`: the new engine state, the
created position, and the entry fee that was debited. -/
structure OpenResult where
  state : MockState
  position : Position
  entryFee : ℚ
  deriving DecidableEq

/-- `openMarketOrder(symbol, side, quantity, leverage, options)`, at a
fetched current price.  Returns `none` when the margin check rejects the
order (the thrown error); on success the account is debited the taker fee
and the margin is reserved before the position is stored. -/
def openMarketOrder (s : MockState) (symbol : String) (side : Side) (quantity : ℚ)
    (leverage : Option ℚ) (currentPrice : ℚ) (atr : Option ℚ) (atrMultiplier : ℚ) :
    Option OpenResult :=
  let positionLeverage := jsOr leverage s.account.defaultLeverage
  let positionSize := quantity
  let notionalValue := positionSize * currentPrice
  let marginRequired := notionalValue / positionLeverage
  if marginRequired > s.account.freeMargin then none
  else
    let executionPrice := applySlippage s.account currentPrice side
    let feeAmount := calculateFee s.account notionalValue .taker
    let stopLoss := calculateATRStopLoss atr atrMultiplier executionPrice side
    let position : Position :=
      { id := s.nextId
        symbol := symbol
        side := side
        status := .opened
        size := positionSize
        leverage := positionLeverage
        entryPrice := executionPrice
        currentPrice := executionPrice
        notionalValue := notionalValue
        marginUsed := marginRequired
        stopLoss := stopLoss
        takeProfit := none
        unrealizedPnL := 0
        realizedPnL := 0
        fees := feeAmount
        totalFees := feeAmount
        closeReason := none
        exitPrice := none
        trailingStop :=
          { enabled := false, triggerPrice := none, distance := none, highestProfit := 0 } }
    let account :=
      { s.account with
        margin := s.account.margin + marginRequired
        freeMargin := s.account.freeMargin - marginRequired
        balance := s.account.balance - feeAmount
        totalTrades := s.account.totalTrades + 1 }
    some
      { state :=
          { s with
            account := account
            activePositions := s.activePositions ++ [position]
            nextId := s.nextId + 1 }
        position := position
        entryFee := feeAmount }

/-- Result of a successful `closePosition`: the new engine state, the
closed position as archived, and the exit fee charged by the close. -/
structure CloseResult where
  state : MockState
  position : Position
  exitFee : ℚ
  deriving DecidableEq

/-- `closePosition(positionId, reason, currentPrice)` at a given raw exit
price.  Returns `none` when the position is missing or already closed
(the thrown errors).  Mirrors the source mutation order: the account is
updated with `netPnL - exitFee`, the win/loss counters and the
peak-balance/drawdown stats are refreshed, the position is removed from
the active map and pushed into the bounded (last 1000) trade history. -/
def closePosition (s : MockState) (positionId : ℕ) (reason : String) (exitPriceRaw : ℚ) :
    Option CloseResult :=
  match s.activePositions.find? (fun p => p.id == positionId) with
  | none => none
  | some position =>
    if position.status ≠ .opened then none
    else
      let executionPrice := applySlippage s.account exitPriceRaw position.side.opposite
      let pnl := calculatePositionPnL position executionPrice
      let exitFee := calculateFee s.account (position.size * executionPrice) .taker
      let netPnL := pnl - exitFee
      let closedPosition :=
        { position with
          status := PositionStatus.closed
          currentPrice := executionPrice
          exitPrice := some executionPrice
          closeReason := some reason
          realizedPnL := netPnL
          totalFees := position.totalFees + exitFee }
      let balance := s.account.balance + netPnL - exitFee
      let maxBalance := if balance > s.account.maxBalance then balance else s.account.maxBalance
      let drawdown := (maxBalance - balance) / maxBalance * 100
      let account :=
        { s.account with
          margin := s.account.margin - position.marginUsed
          freeMargin := s.account.freeMargin + position.marginUsed
          balance := balance
          equity := balance + getCurrentUnrealizedPnL s.activePositions
          totalPnL := s.account.totalPnL + netPnL
          winningTrades :=
            if netPnL > 0 then s.account.winningTrades + 1 else s.account.winningTrades
          losingTrades :=
            if netPnL > 0 then s.account.losingTrades else s.account.losingTrades + 1
          maxBalance := maxBalance
          maxDrawdown :=
            if drawdown > s.account.maxDrawdown then drawdown else s.account.maxDrawdown }
      let history := s.tradeHistory ++ [closedPosition]
      let history := if history.length > 1000 then history.drop (history.length - 1000) else history
      some
        { state :=
            { s with
              account := account
              activePositions := s.activePositions.filter (fun p => !(p.id == positionId))
              tradeHistory := history }
          position := closedPosition
          exitFee := exitFee }

/-! ## Open/close sequences and the margin/balance accounting (C1) -/

/-- One requested engine operation: a market open (with its externally
fetched price and ATR inputs) or a close (with its reason and raw exit
price). -/
inductive MockOp
  | openOp (symbol : String) (side : Side) (quantity : ℚ) (leverage : Option ℚ)
      (currentPrice : ℚ) (atr : Option ℚ) (atrMultiplier : ℚ)
  | closeOp (positionId : ℕ) (reason : String) (exitPrice : ℚ)
  deriving DecidableEq

/-- What one successful operation charged and realized: the fee debited by
that operation and the realized P&L it recorded (0 for an open; the
archived position's `realizedPnL` for a close). -/
structure OpReceipt where
  fees : ℚ
  realizedPnL : ℚ
  deriving DecidableEq

/-- One engine step: `none` when the operation is rejected. -/
def mockStep (s : MockState) (op : MockOp) : Option (MockState × OpReceipt) :=
  match op with
  | .openOp symbol side quantity leverage currentPrice atr atrMultiplier =>
    (openMarketOrder s symbol side quantity leverage currentPrice atr atrMultiplier).map
      fun r => (r.state, { fees := r.entryFee, realizedPnL := 0 })
  | .closeOp positionId reason exitPrice =>
    (closePosition s positionId reason exitPrice).map
      fun r => (r.state, { fees := r.exitFee, realizedPnL := r.position.realizedPnL })

/-- Total version of `mockStep`: a rejected operation throws before any
mutation, so it leaves the state unchanged. -/
def mockStepTotal (s : MockState) (op : MockOp) : MockState :=
  match mockStep s op with
  | none => s
  | some r => r.1

/-- All states visited while executing a sequence of operations from a
freshly initialized engine. -/
def mockTrace (config : MockConfig) (ops : List MockOp) : List MockState :=
  List.scanl mockStepTotal (initMockState config) ops

/-- Margin reserved by the open positions: the sum of `marginUsed` over
the active positions whose status is `'open'`. -/
def marginSum (positions : List Position) : ℚ :=
  ((positions.filter fun p => p.status == PositionStatus.opened).map Position.marginUsed).sum

/-- The engine state invariant backing the margin accounting: the account
margin is the reserved margin of the open positions, and the active map
has distinct ids, all below the id counter. -/
def StateInv (s : MockState) : Prop :=
  s.account.margin = marginSum s.activePositions ∧
  (s.activePositions.map Position.id).Nodup ∧
  ∀ p ∈ s.activePositions, p.id < s.nextId

/-! ## Execution engine trailing rule (mockTrader.js, `updateTrailingStop`) -/

/-- `updateTrailingStop(position, currentPrice)`: the engine's own basic
trailing rule.  The configured `trailingStopPercentage` is passed in (the
source reads it from `Config` with default 30).  The highest-profit field
is refreshed first; the proposed stop is applied only when it is strictly
above (long) / strictly below (short) the current stop. -/
def updateTrailingStop (trailingPercent : ℚ) (position : Position) (currentPrice : ℚ) :
    Position :=
  if !position.trailingStop.enabled then position
  else
    let currentPnL := calculatePositionPnL position currentPrice
    let position :=
      if currentPnL > position.trailingStop.highestProfit then
        { position with trailingStop := { position.trailingStop with highestProfit := currentPnL } }
      else position
    let profitFromEntry := |currentPnL|
    let trailingDistance := profitFromEntry * (trailingPercent / 100)
    match position.side with
    | .long =>
      let proposedStopLoss := currentPrice - trailingDistance
      if proposedStopLoss > position.stopLoss then { position with stopLoss := proposedStopLoss }
      else position
    | .short =>
      let proposedStopLoss := currentPrice + trailingDistance
      if proposedStopLoss < position.stopLoss then { position with stopLoss := proposedStopLoss }
      else position

/-- The candidate stop the engine's trailing rule computes for a long
position (`proposedStopLoss` in the source). -/
def proposedStopLong (trailingPercent : ℚ) (position : Position) (currentPrice : ℚ) : ℚ :=
  currentPrice - |calculatePositionPnL position currentPrice| * (trailingPercent / 100)

/-- The candidate stop the engine's trailing rule computes for a short
position. -/
def proposedStopShort (trailingPercent : ℚ) (position : Position) (currentPrice : ℚ) : ℚ :=
  currentPrice + |calculatePositionPnL position currentPrice| * (trailingPercent / 100)

/-! ## Trailing-stop engine (src/unnamed/part_002) -/

/-- `TRAILING_TYPES`. -/
inductive TrailingType
  | percentage
  | atr
  | fixed
  | step
  | adaptive
  deriving DecidableEq

/-- `TRAILING_STATUS`. -/
inductive TrailingStatus
  | waiting
  | active
  | triggered
  | disabled
  deriving DecidableEq

/-- One entry of a step-trailing schedule. -/
structure StepRule where
  profitPercent : ℚ
  trailingPercent : ℚ
  deriving DecidableEq

/-- The per-strategy configuration fields read by the stop computations. -/
structure TrailingConfig where
  type : TrailingType
  triggerPercent : ℚ
  trailingPercent : ℚ
  atrMultiplier : ℚ
  fixedDistance : Option ℚ
  steps : List StepRule
  minProfit : ℚ
  deriving DecidableEq

/-- A trailing context (the `trailing` object of part_002).  Only the
fields read by the stop-loss computations are modelled. -/
structure Trailing where
  positionId : ℕ
  side : Side
  config : TrailingConfig
  status : TrailingStatus
  entryPrice : ℚ
  currentPrice : ℚ
  initialStopLoss : ℚ
  currentStopLoss : ℚ
  highestProfit : ℚ
  highestPrice : ℚ
  currentProfit : ℚ
  currentProfitPercent : ℚ
  atrValue : Option ℚ
  deriving DecidableEq

/-- `calculatePercentageTrailing(trailing)`. -/
def calculatePercentageTrailing (t : Trailing) : ℚ :=
  let trailingDistance := t.highestProfit * (t.config.trailingPercent / 100)
  match t.side with
  | .long => t.highestPrice - trailingDistance
  | .short => t.highestPrice + trailingDistance

/-- `calculateATRTrailing(trailing)`: `null` without an ATR value. -/
def calculateATRTrailing (t : Trailing) : Option ℚ :=
  match t.atrValue with
  | none => none
  | some atrValue =>
    let atrDistance := atrValue * t.config.atrMultiplier
    some
      (match t.side with
       | .long => t.currentPrice - atrDistance
       | .short => t.currentPrice + atrDistance)

/-- `calculateFixedTrailing(trailing)`; `config.fixedDistance || 0.01`. -/
def calculateFixedTrailing (t : Trailing) : ℚ :=
  let fixedDistance := jsOr t.config.fixedDistance 0.01
  match t.side with
  | .long => t.currentPrice * (1 - fixedDistance)
  | .short => t.currentPrice * (1 + fixedDistance)

/-- The step-selection loop of `calculateStepTrailing`: the last step of
the list whose `profitPercent` is reached. -/
def selectStep (currentProfitPercent : ℚ) (steps : List StepRule) : Option StepRule :=
  steps.foldl
    (fun selected st => if currentProfitPercent ≥ st.profitPercent then some st else selected)
    none

/-- `calculateStepTrailing(trailing)`: `null` when no step applies. -/
def calculateStepTrailing (t : Trailing) : Option ℚ :=
  match selectStep t.currentProfitPercent t.config.steps with
  | none => none
  | some st =>
    let trailingDistance := t.highestProfit * (st.trailingPercent / 100)
    some
      (match t.side with
       | .long => t.highestPrice - trailingDistance
       | .short => t.highestPrice + trailingDistance)

/-- `getVolatilityAdjustment(symbol)` applied to a cached volatility
value (the cache read is external; `cached || 2.0`). -/
def getVolatilityAdjustment (volatility : ℚ) : ℚ :=
  (volatility - 2) * 5

/-- `calculateAdaptiveTrailing(trailing)` at a given cached volatility. -/
def calculateAdaptiveTrailing (volatility : ℚ) (t : Trailing) : ℚ :=
  let basePercent : ℚ := 30
  let adaptivePercent := max 20 (min 50 (basePercent + getVolatilityAdjustment volatility))
  let trailingDistance := t.highestProfit * (adaptivePercent / 100)
  match t.side with
  | .long => t.highestPrice - trailingDistance
  | .short => t.highestPrice + trailingDistance

/-- `calculateNewStopLoss(trailing)`: dispatch on the strategy type. -/
def calculateNewStopLoss (volatility : ℚ) (t : Trailing) : Option ℚ :=
  match t.config.type with
  | .percentage => some (calculatePercentageTrailing t)
  | .atr => calculateATRTrailing t
  | .fixed => some (calculateFixedTrailing t)
  | .step => calculateStepTrailing t
  | .adaptive => some (calculateAdaptiveTrailing volatility t)

/-- `shouldUpdateStopLoss(trailing, newStopLoss, oldStopLoss)`.  The
JavaScript guard `!newStopLoss` rejects both `null` and the falsy price
`0`; a long stop may only move up, a short stop only down. -/
def shouldUpdateStopLoss (t : Trailing) (newStopLoss : Option ℚ) (oldStopLoss : ℚ) : Bool :=
  match newStopLoss with
  | none => false
  | some n =>
    if n = 0 then false
    else
      match t.side with
      | .long => decide (n > oldStopLoss)
      | .short => decide (n < oldStopLoss)

/-- `updatePositionStopLoss(trailing, newStopLoss)`: write the new stop
into the position and the context. -/
def updatePositionStopLoss (t : Trailing) (pos : Position) (newStopLoss : ℚ) :
    Trailing × Position :=
  ({ t with currentStopLoss := newStopLoss }, { pos with stopLoss := newStopLoss })

/-- `updateActiveTrailing(trailing)` acting on the tracked position: the
candidate stop is applied only when `shouldUpdateStopLoss` accepts it.
The caller (`updateTrailing`) has just synced `trailing.currentStopLoss`
from `position.stopLoss`. -/
def updateActiveTrailing (volatility : ℚ) (t : Trailing) (pos : Position) :
    Trailing × Position :=
  let oldStopLoss := t.currentStopLoss
  let newStopLoss := calculateNewStopLoss volatility t
  if shouldUpdateStopLoss t newStopLoss oldStopLoss then
    updatePositionStopLoss t pos (newStopLoss.getD 0)
  else (t, pos)

/-! ## Timeframe validator (timeframeValidator.js) -/

/-- `VALIDATION_STATES`. -/
inductive ValidationState
  | pending
  | validating
  | confirmed
  | rejected
  | expired
  deriving DecidableEq

/-- A validation session; only the fields touched by cancellation and
finalization are modelled. -/
structure ValidationSession where
  symbol : String
  targetSignal : Side
  state : ValidationState
  finalReason : Option String
  deriving DecidableEq

/-- The mutation `cancelValidation` performs on a session found in the
cache: the state is set to rejected with no check of the current state. -/
def cancelValidation (v : ValidationSession) : ValidationSession :=
  { v with state := .rejected, finalReason := some "Manuel iptal" }

/-- The mutation `finalizeValidation` performs on a session: confirmed on
success, rejected otherwise, again with no check of the current state. -/
def finalizeValidation (v : ValidationSession) (isSuccessful : Bool) (reason : String) :
    ValidationSession :=
  { v with state := if isSuccessful then .confirmed else .rejected, finalReason := some reason }

/-- `getTimeframeCheckInterval(timeframe)`, in milliseconds. -/
def getTimeframeCheckInterval (timeframe : String) : ℕ :=
  if timeframe = "4h" then 15 * 60 * 1000
  else if timeframe = "1h" then 5 * 60 * 1000
  else if timeframe = "15m" then 1 * 60 * 1000
  else if timeframe = "5m" then 30 * 1000
  else if timeframe = "1m" then 10 * 1000
  else 60 * 1000

/-- Number of iterations of the `while (Date.now() < endTime)` monitoring
loop when each iteration advances time by one `checkInterval` sleep. -/
def monitorPollCount (windowDuration checkInterval : ℕ) : ℕ :=
  (windowDuration + checkInterval - 1) / checkInterval

/-- The monitoring loop body: poll the timeframe each iteration, return
confirmation at the first valid poll, reject on window timeout.  `polls`
is the sequence of per-iteration `validateTimeframe(...).isValid` results;
the second component counts the polls performed. -/
def monitorWindowGo (polls : ℕ → Bool) : ℕ → ℕ → Bool × ℕ
  | 0, checks => (false, checks)
  | fuel + 1, checks =>
    if polls checks then (true, checks + 1)
    else monitorWindowGo polls fuel (checks + 1)

/-- `monitorTimeframeWindow(validationId, timeframe, windowDuration)` for
a window of the given duration and poll interval. -/
def monitorTimeframeWindow (windowDuration checkInterval : ℕ) (polls : ℕ → Bool) :
    Bool × ℕ :=
  monitorWindowGo polls (monitorPollCount windowDuration checkInterval) 0

/-- Outcome of `executeSequentialValidation`: the final session state, how
often the 4h stage was evaluated, the polls spent in each monitoring
window, and the windows opened (timeframe, duration, poll interval) in
order. -/
structure SeqResult where
  state : ValidationState
  count4h : ℕ
  polls1h : ℕ
  polls15m : ℕ
  windows : List (String × ℕ × ℕ)
  deriving DecidableEq

/-- `executeSequentialValidation(validationId)`: stage 1 evaluates 4h once
immediately and rejects on failure; stage 2 monitors 1h for 4 hours at the
1h poll interval; stage 3 monitors 15m for 1 hour at the 15m poll
interval; the session is confirmed only when all stages confirm.
`check4h` is the stage-1 `validateTimeframe(...).isValid` result and
`polls1h`/`polls15m` the per-iteration results of the two windows. -/
def executeSequentialValidation (check4h : Bool) (polls1h polls15m : ℕ → Bool) : SeqResult :=
  if !check4h then
    { state := .rejected, count4h := 1, polls1h := 0, polls15m := 0, windows := [] }
  else
    let interval1h := getTimeframeCheckInterval "1h"
    let w1 := monitorTimeframeWindow (4 * 60 * 60 * 1000) interval1h polls1h
    if !w1.1 then
      { state := .rejected, count4h := 1, polls1h := w1.2, polls15m := 0,
        windows := [("1h", 4 * 60 * 60 * 1000, interval1h)] }
    else
      let interval15m := getTimeframeCheckInterval "15m"
      let w15 := monitorTimeframeWindow (60 * 60 * 1000) interval15m polls15m
      { state := if w15.1 then .confirmed else .rejected, count4h := 1, polls1h := w1.2,
        polls15m := w15.2,
        windows :=
          [("1h", 4 * 60 * 60 * 1000, interval1h), ("15m", 60 * 60 * 1000, interval15m)] }

/-! ## Risk manager (concatenated into rsi.js) -/

/-- `RISK_LEVELS`. -/
inductive RiskLevel
  | low
  | medium
  | high
  | critical
  deriving DecidableEq

/-- `Math.ceil` on a JavaScript number. -/
def jsCeil (q : ℚ) : ℚ :=
  (Int.ceil q : ℤ)

/-- Per-level thresholds (`riskLimits.thresholds[level]`). -/
structure LevelThresholds where
  dailyLoss : ℚ
  drawdown : ℚ
  positions : ℚ
  deriving DecidableEq

/-- The full threshold table. -/
structure RiskThresholds where
  low : LevelThresholds
  medium : LevelThresholds
  high : LevelThresholds
  critical : LevelThresholds
  deriving DecidableEq

/-- `setupRiskLimits()`: thresholds derived from the profile limits
(defaults `maxDailyLoss = 10`, `maxDrawdown = 15`, `maxPositions = 5`). -/
def setupRiskLimits (maxDailyLoss maxDrawdown maxPositions : ℚ) : RiskThresholds :=
  { low :=
      { dailyLoss := maxDailyLoss * 0.3, drawdown := maxDrawdown * 0.3,
        positions := jsCeil (maxPositions * 0.6) }
    medium :=
      { dailyLoss := maxDailyLoss * 0.6, drawdown := maxDrawdown * 0.6,
        positions := jsCeil (maxPositions * 0.8) }
    high :=
      { dailyLoss := maxDailyLoss * 0.8, drawdown := maxDrawdown * 0.8,
        positions := maxPositions }
    critical :=
      { dailyLoss := maxDailyLoss, drawdown := maxDrawdown, positions := 0 } }

/-- The metrics bundle returned by `getCurrentRiskMetrics()`. -/
structure RiskMetricsCur where
  dailyLossPercent : ℚ
  drawdownPercent : ℚ
  activePositions : ℚ
  totalExposure : ℚ
  unrealizedPnL : ℚ
  marginLevel : ℚ
  deriving DecidableEq

/-- `calculateCurrentRiskLevel()`: thresholds are checked from critical
down; emergency mode forces critical. -/
def calculateCurrentRiskLevel (th : RiskThresholds) (emergencyMode : Bool)
    (m : RiskMetricsCur) : RiskLevel :=
  if m.dailyLossPercent ≥ th.critical.dailyLoss ∨ m.drawdownPercent ≥ th.critical.drawdown ∨
      emergencyMode = true then
    .critical
  else if m.dailyLossPercent ≥ th.high.dailyLoss ∨ m.drawdownPercent ≥ th.high.drawdown ∨
      m.activePositions ≥ th.high.positions then
    .high
  else if m.dailyLossPercent ≥ th.medium.dailyLoss ∨ m.drawdownPercent ≥ th.medium.drawdown ∨
      m.activePositions ≥ th.medium.positions then
    .medium
  else .low

/-- The `dailyStats.dailyLossPercent` computation of `updateRiskMetrics`:
`Math.abs(dailyPnL / startingBalance) * 100` with
`dailyPnL = balance - startingBalance`.  Note the absolute value: a gain
produces the same percentage as a loss of equal size. -/
def dailyLossPercent (startingBalance balance : ℚ) : ℚ :=
  |(balance - startingBalance) / startingBalance| * 100

/-- The risk-profile limits read by the emergency checks (defaults
`maxDailyLoss = 10`, `maxDrawdown = 15`, `panicModeThreshold = 25`). -/
structure RiskProfileCfg where
  maxDailyLoss : ℚ
  maxDrawdown : ℚ
  panicModeThreshold : ℚ
  deriving DecidableEq

/-- Emergency trigger kinds produced by `checkEmergencyTriggers`. -/
inductive TriggerType
  | dailyLossLimit
  | drawdownLimit
  | marginCall
  | panicMode
  deriving DecidableEq

/-- `checkEmergencyTriggers()`: the list of triggers fired in one risk
cycle, in source order. -/
def checkEmergencyTriggers (profile : RiskProfileCfg) (m : RiskMetricsCur)
    (startingBalance balance : ℚ) : List TriggerType :=
  (if m.dailyLossPercent ≥ profile.maxDailyLoss then [TriggerType.dailyLossLimit] else []) ++
  (if m.drawdownPercent ≥ profile.maxDrawdown then [TriggerType.drawdownLimit] else []) ++
  (if m.marginLevel > 0 ∧ m.marginLevel < 200 then [TriggerType.marginCall] else []) ++
  (if (startingBalance - balance) / startingBalance * 100 ≥ profile.panicModeThreshold then
    [TriggerType.panicMode]
  else [])

/-- Combined risk-manager and execution-engine state for the emergency
path: the `emergencyMode` flag, the risk level, the
`riskProfile.maxPositions` limit, the trader state whose positions the
emergency actions close, and counters of the events emitted
(`emergency_mode_activated`, `emergency_triggered`) and risk events
recorded. -/
structure RiskSys where
  emergencyMode : Bool
  level : RiskLevel
  maxPositions : ℚ
  trader : MockState
  activationEvents : ℕ
  triggeredEvents : ℕ
  riskEventCount : ℕ
  deriving DecidableEq

/-- The close loop of `executeEmergencyActions`: each snapshot position is
closed through `MockTrader.closePosition(id, 'emergency_close')` at the
fetched current price; a price fetch failure or rejected close throws, and
the surrounding `try` aborts the remaining closes. -/
def emergencyCloseAll (priceOf : String → Option ℚ) :
    List Position → MockState → MockState
  | [], t => t
  | p :: rest, t =>
    match priceOf p.symbol with
    | none => t
    | some price =>
      match closePosition t p.id "emergency_close" price with
      | none => t
      | some r => emergencyCloseAll priceOf rest r.state

/-- `executeEmergencyActions(trigger)`: close every open position with
reason `'emergency_close'` and block new positions. -/
def executeEmergencyActions (priceOf : String → Option ℚ) (s : RiskSys) : RiskSys :=
  { s with
    trader := emergencyCloseAll priceOf s.trader.activePositions s.trader
    maxPositions := 0 }

/-- `activateEmergencyMode(trigger)`: set the flag, force the critical
level, run the emergency actions, emit the activation event. -/
def activateEmergencyMode (priceOf : String → Option ℚ) (s : RiskSys) : RiskSys :=
  let s1 := { s with emergencyMode := true, level := RiskLevel.critical }
  let s2 := executeEmergencyActions priceOf s1
  { s2 with activationEvents := s2.activationEvents + 1 }

/-- `handleEmergencyTrigger(trigger)`: activation runs only when
emergency mode is not yet active; a risk event is always recorded and an
`emergency_triggered` event always emitted. -/
def handleEmergencyTrigger (priceOf : String → Option ℚ) (s : RiskSys) : RiskSys :=
  let s1 := if s.emergencyMode then s else activateEmergencyMode priceOf s
  { s1 with
    riskEventCount := s1.riskEventCount + 1
    triggeredEvents := s1.triggeredEvents + 1 }

/-- A sequence of `n` emergency triggers handled in series (the
`triggers.forEach(handleEmergencyTrigger)` loop across cycles). -/
def runTriggers (priceOf : String → Option ℚ) (s : RiskSys) : ℕ → RiskSys
  | 0 => s
  | n + 1 => runTriggers priceOf (handleEmergencyTrigger priceOf s) n

/-! ## Signal generator (src/unnamed/part_003) -/

/-- `SIGNAL_TYPES`. -/
inductive SignalType
  | long
  | short
  | neutral
  deriving DecidableEq

/-- `SIGNAL_STRENGTH`. -/
inductive SignalStrength
  | weak
  | moderate
  | strong
  | veryStrong
  deriving DecidableEq

/-- Band overflow direction of the Nadaraya-Watson reading. -/
inductive OverflowDirection
  | upper
  | lower
  deriving DecidableEq

/-- The `overflow` part of a Nadaraya-Watson per-timeframe reading. -/
structure NadarayaReading where
  direction : OverflowDirection
  percentage : ℚ
  deriving DecidableEq

/-- RSI signal classification (`generateRSISignal`). -/
inductive RSISig
  | oversold
  | overbought
  | neutral
  deriving DecidableEq

/-- An RSI per-timeframe reading. -/
structure RSIReading where
  value : ℚ
  signal : RSISig
  hasRecentDivergence : Bool
  deriving DecidableEq

/-- Moving-average reversal direction. -/
inductive MADirection
  | bullish
  | bearish
  deriving DecidableEq

/-- The `reversal` part of a moving-averages per-timeframe reading. -/
structure MAReading where
  isValid : Bool
  direction : MADirection
  confidence : ℚ
  deriving DecidableEq

/-- The indicator readings of one timeframe, as produced by the external
indicator library; an indicator that had insufficient data contributes
nothing (`none`). -/
structure TFReadings where
  nadaraya : Option NadarayaReading
  rsi : Option RSIReading
  movingAverages : Option MAReading
  deriving DecidableEq

/-- Readings of the three analyzed timeframes. -/
structure MultiReadings where
  tf4h : TFReadings
  tf1h : TFReadings
  tf15m : TFReadings
  deriving DecidableEq

/-- Readings with every indicator absent: what the indicator library
yields on insufficient market data. -/
def emptyReadings : TFReadings :=
  { nadaraya := none, rsi := none, movingAverages := none }

/-- All-empty multi-timeframe readings. -/
def emptyMulti : MultiReadings :=
  { tf4h := emptyReadings, tf1h := emptyReadings, tf15m := emptyReadings }

/-- Per-timeframe analysis result of `analyzeTimeframe`: the weighted
score, the classification and which indicators fired (the keys of
`analysis.signals`). -/
structure TFAnalysis where
  score : ℚ
  signal : SignalType
  strength : SignalStrength
  hasNadaraya : Bool
  hasRSI : Bool
  hasMA : Bool
  deriving DecidableEq

/-- The per-timeframe strength tiers of `analyzeTimeframe`. -/
def scoreStrength (absScore : ℚ) : SignalStrength :=
  if absScore ≥ 6 then .veryStrong
  else if absScore ≥ 4 then .strong
  else if absScore ≥ 2 then .moderate
  else .weak

/-- `analyzeTimeframe(timeframe, indicators, candleData)`: Nadaraya
overflow contributes ±3 when its percentage reaches the per-timeframe
threshold, RSI contributes ±1 with a 1.5 divergence bonus when not
neutral, a valid MA reversal contributes ±2 scaled by its confidence;
long above score 2, short below −2. -/
def analyzeTimeframe (threshold : ℚ) (r : TFReadings) : TFAnalysis :=
  let nadarayaPart : ℚ × Bool :=
    match r.nadaraya with
    | some nr =>
      if nr.percentage ≥ threshold then
        ((if nr.direction = .upper then -3 else 3), true)
      else (0, false)
    | none => (0, false)
  let rsiPart : ℚ × Bool :=
    match r.rsi with
    | some rr =>
      if rr.signal ≠ .neutral then
        let rsiSignal : SignalType := if rr.signal = .oversold then .long else .short
        let divergenceBonus : ℚ := if rr.hasRecentDivergence then 1.5 else 1.0
        ((if rsiSignal = .long then 1 else -1) * divergenceBonus, true)
      else (0, false)
    | none => (0, false)
  let maPart : ℚ × Bool :=
    match r.movingAverages with
    | some mr =>
      if mr.isValid then
        let maSignal : SignalType := if mr.direction = .bullish then .long else .short
        ((if maSignal = .long then 2 else -2) * mr.confidence, true)
      else (0, false)
    | none => (0, false)
  let score := nadarayaPart.1 + rsiPart.1 + maPart.1
  let signal :=
    if score > 2 then SignalType.long
    else if score < -2 then SignalType.short
    else SignalType.neutral
  { score := score, signal := signal, strength := scoreStrength |score|,
    hasNadaraya := nadarayaPart.2, hasRSI := rsiPart.2, hasMA := maPart.2 }

/-- Result of `calculateOverallSignal`. -/
structure OverallSignal where
  signal : SignalType
  strength : SignalStrength
  score : ℚ
  activeTimeframes : ℕ
  deriving DecidableEq

/-- `calculateOverallSignal(timeframeAnalysis)`: fixed weights 4h:3, 1h:2,
15m:1 over the non-neutral timeframes; long above average score 1, short
below −1; neutral with weak strength when no timeframe is active. -/
def calculateOverallSignal (a4 a1 a15 : TFAnalysis) : OverallSignal :=
  let weighted : List (TFAnalysis × ℚ) := [(a4, 3), (a1, 2), (a15, 1)]
  let act := weighted.filter fun x => !(x.1.signal == SignalType.neutral)
  let totalScore := (act.map fun x => x.1.score * x.2).sum
  let totalWeight := (act.map fun x => x.2).sum
  if act.length = 0 then
    { signal := .neutral, strength := .weak, score := 0, activeTimeframes := 0 }
  else
    let avgScore := totalScore / totalWeight
    let signal :=
      if avgScore > 1 then SignalType.long
      else if avgScore < -1 then SignalType.short
      else SignalType.neutral
    let strength :=
      if |avgScore| ≥ 4 then SignalStrength.veryStrong
      else if |avgScore| ≥ 3 then SignalStrength.strong
      else if |avgScore| ≥ 2 then SignalStrength.moderate
      else SignalStrength.weak
    { signal := signal, strength := strength, score := avgScore, activeTimeframes := act.length }

/-- The per-timeframe strength factor of `calculateConfidence`. -/
def strengthScore (a : TFAnalysis) : ℚ :=
  if a.signal = .neutral then 0
  else
    match a.strength with
    | .veryStrong => 1.0
    | .strong => 0.8
    | .moderate => 0.6
    | .weak => 0.4

/-- Indicators that fired on one timeframe (`analysis.signals` keys). -/
def indicatorCount (a : TFAnalysis) : ℕ :=
  (if a.hasNadaraya then 1 else 0) + (if a.hasRSI then 1 else 0) + (if a.hasMA then 1 else 0)

/-- `calculateConfidence(timeframeAnalysis, indicators)`: consensus ratio
(weight 0.4, only when some timeframe is non-neutral), indicator
diversity over 3 indicators × 3 timeframes (weight 0.3), average strength
tier (weight 0.3); the sum is divided by the number of contributing
factors and clamped to [0, 1]. -/
def calculateConfidence (a4 a1 a15 : TFAnalysis) : ℚ :=
  let signals :=
    ([a4, a1, a15].map TFAnalysis.signal).filter fun s => !(s == SignalType.neutral)
  let consensusPart : ℚ × ℕ :=
    if signals.length ≠ 0 then
      let longCount := (signals.filter fun s => s == SignalType.long).length
      let shortCount := (signals.filter fun s => s == SignalType.short).length
      (((max longCount shortCount : ℕ) : ℚ) / (signals.length : ℚ) * 0.4, 1)
    else (0, 0)
  let activeIndicators := indicatorCount a4 + indicatorCount a1 + indicatorCount a15
  let indicatorDiversity := (activeIndicators : ℚ) / (3 * 3)
  let avgStrength := (strengthScore a4 + strengthScore a1 + strengthScore a15) / 3
  let confidenceScore := consensusPart.1 + indicatorDiversity * 0.3 + avgStrength * 0.3
  let factors := consensusPart.2 + 2
  let confidence := if 0 < factors then confidenceScore / (factors : ℚ) else 0
  min (max confidence 0) 1

/-- The analysis object assembled by `analyzeSymbol` (the fields the
claims are about). -/
structure SignalAnalysis where
  recommendation : SignalType
  confidence : ℚ
  overall : OverallSignal
  deriving DecidableEq

/-- `analyzeSymbol(symbol, multiData, options)`: `null` when the symbol or
the market data is missing (`!symbol || !multiData`); otherwise the
analysis is assembled from the per-timeframe indicator readings, with the
per-timeframe Nadaraya thresholds passed in from configuration. -/
def analyzeSymbol (symbol : String) (multiData : Option MultiReadings)
    (th4 th1 th15 : ℚ) : Option SignalAnalysis :=
  if symbol = "" ∨ multiData = none then none
  else
    match multiData with
    | none => none
    | some readings =>
      let a4 := analyzeTimeframe th4 readings.tf4h
      let a1 := analyzeTimeframe th1 readings.tf1h
      let a15 := analyzeTimeframe th15 readings.tf15m
      let overall := calculateOverallSignal a4 a1 a15
      some
        { recommendation := overall.signal
          confidence := calculateConfidence a4 a1 a15
          overall := overall }

/-! ## Concrete demonstration values used by witnesses and counterexamples -/

/-- Empty `MOCK_TRADING` configuration: every field defaulted. -/
def demoCfg : MockConfig :=
  { initialBalance := none, maxLeverage := none, defaultLeverage := none,
    fees := none, slippage := none }

/-- Fresh engine state with the default configuration. -/
def demoState0 : MockState :=
  initMockState demoCfg

/-- The spec scenario order: long BTCUSDT, size 1, leverage 10, at price
50000, with no ATR available. -/
def demoOpen : MockOp :=
  MockOp.openOp "BTCUSDT" Side.long 1 (some 10) 50000 none 1.5

/-- State after the demo open: balance 9980, margin 5000, one position
with entry 50050 (0.1% slippage) and entry fee 20. -/
def demoState1 : MockState :=
  mockStepTotal demoState0 demoOpen

/-- Receipt of the demo open: taker fee 20, no realized P&L. -/
def demoOpenRcpt : OpReceipt :=
  { fees := 20, realizedPnL := 0 }

/-- A throwaway position literal used only as an `Option.getD` default. -/
def dummyPosition : Position :=
  { id := 0, symbol := "", side := .long, status := .opened, size := 0, leverage := 0,
    entryPrice := 0, currentPrice := 0, notionalValue := 0, marginUsed := 0, stopLoss := 0,
    takeProfit := none, unrealizedPnL := 0, realizedPnL := 0, fees := 0, totalFees := 0,
    closeReason := none, exitPrice := none,
    trailingStop := { enabled := false, triggerPrice := none, distance := none, highestProfit := 0 } }

/-- The position created by the demo open. -/
def demoOpenPos : Position :=
  (demoState1.activePositions.head?).getD dummyPosition

/-- Throwaway close result used only as an `Option.getD` default. -/
def dummyCloseRes : CloseResult :=
  { state := demoState0, position := dummyPosition, exitFee := 0 }

/-- Closing the demo position at raw exit price 52000 (execution price
51948 after exit slippage). -/
def demoCloseRes : CloseResult :=
  (closePosition demoState1 0 "manual" 52000).getD dummyCloseRes

/-- A long position with the engine trailing rule enabled: entry 50000,
stop 49000, in 1000 profit at price 51000. -/
def demoTrailPos : Position :=
  { dummyPosition with
    symbol := "BTCUSDT", side := .long, size := 1, leverage := 10, entryPrice := 50000,
    currentPrice := 51000, notionalValue := 50000, marginUsed := 5000, stopLoss := 49000,
    trailingStop := { enabled := true, triggerPrice := some 52000, distance := none,
                      highestProfit := 0 } }

/-- A percentage-strategy trailing context for `demoTrailPos`. -/
def demoTrailing : Trailing :=
  { positionId := 0, side := .long,
    config :=
      { type := .percentage, triggerPercent := 2, trailingPercent := 50, atrMultiplier := 2,
        fixedDistance := none, steps := [], minProfit := 0.5 },
    status := .active, entryPrice := 50000, currentPrice := 51000, initialStopLoss := 49000,
    currentStopLoss := 49000, highestProfit := 1000, highestPrice := 51000,
    currentProfit := 1000, currentProfitPercent := 2, atrValue := none }

/-- A session that has already reached the terminal confirmed state. -/
def demoConfirmedSession : ValidationSession :=
  { symbol := "BTCUSDT", targetSignal := .long, state := .confirmed,
    finalReason := some "Sequential validation ok" }

/-- The default risk-profile limits. -/
def defaultRiskProfileCfg : RiskProfileCfg :=
  { maxDailyLoss := 10, maxDrawdown := 15, panicModeThreshold := 25 }

/-- The default threshold table (`maxDailyLoss = 10`, `maxDrawdown = 15`,
`maxPositions = 5`). -/
def defaultRiskThresholds : RiskThresholds :=
  setupRiskLimits 10 15 5

/-- Metrics after a day that started at 10000 and now stands at 11100: an
11% gain, which `updateRiskMetrics` records as `dailyLossPercent = 11`. -/
def demoGainMetrics : RiskMetricsCur :=
  { dailyLossPercent := dailyLossPercent 10000 11100, drawdownPercent := 0,
    activePositions := 0, totalExposure := 0, unrealizedPnL := 0, marginLevel := 0 }

/-- All-zero risk metrics. -/
def zeroMetrics : RiskMetricsCur :=
  { dailyLossPercent := 0, drawdownPercent := 0, activePositions := 0, totalExposure := 0,
    unrealizedPnL := 0, marginLevel := 0 }

/-- Risk metrics with a small daily loss that crosses no threshold of the
default table. -/
def demoSmallLossMetrics : RiskMetricsCur :=
  { zeroMetrics with dailyLossPercent := 1 }

/-- Risk system before any emergency: one open position (the demo open),
no emergency mode. -/
def demoRiskSys : RiskSys :=
  { emergencyMode := false, level := .medium, maxPositions := 5, trader := demoState1,
    activationEvents := 0, triggeredEvents := 0, riskEventCount := 0 }

/-- Price feed for the demo: every symbol quotes 52000. -/
def demoPriceOf : String → Option ℚ :=
  fun _ => some 52000

/-! ## Helper lemmas -/

theorem jsOrBool_true (x : Option Bool) : jsOrBool x true = true := by
  cases x with
  | none => rfl
  | some b => simp [jsOrBool]

theorem marginSum_nil : marginSum [] = 0 := rfl

theorem marginSum_cons (p : Position) (ps : List Position) :
    marginSum (p :: ps) =
      (if p.status = PositionStatus.opened then p.marginUsed else 0) + marginSum ps := by
  by_cases h : p.status = PositionStatus.opened <;>
    simp [marginSum, List.filter_cons, h]

theorem marginSum_append (ps qs : List Position) :
    marginSum (ps ++ qs) = marginSum ps + marginSum qs := by
  simp [marginSum, List.filter_append]

theorem marginSum_filter_ne (ps : List Position) (pid : ℕ) (p : Position)
    (hnd : (ps.map Position.id).Nodup) (hmem : p ∈ ps) (hid : p.id = pid)
    (hst : p.status = PositionStatus.opened) :
    marginSum (ps.filter fun q => !(q.id == pid)) = marginSum ps - p.marginUsed := by
  induction ps with
  | nil => cases hmem
  | cons q rest ih =>
    simp only [List.map_cons, List.nodup_cons] at hnd
    rcases List.mem_cons.mp hmem with rfl | hmem'
    · have hrest : rest.filter (fun r => !(r.id == pid)) = rest := by
        apply List.filter_eq_self.mpr
        intro r hr
        have hne : r.id ≠ pid := by
          intro hr'
          have hmm : r.id ∈ List.map Position.id rest := List.mem_map_of_mem Position.id hr
          rw [hr', ← hid] at hmm
          exact hnd.1 hmm
        simp [hne]
      rw [List.filter_cons]
      have hcond : (!(p.id == pid)) = false := by simp [hid]
      rw [hcond]
      simp only [Bool.false_eq_true, if_false]
      rw [hrest, marginSum_cons, if_pos hst]
      ring
    · have hq : q.id ≠ pid := by
        intro hq'
        have hmm : p.id ∈ List.map Position.id rest := List.mem_map_of_mem Position.id hmem'
        rw [hid, ← hq'] at hmm
        exact hnd.1 hmm
      rw [List.filter_cons]
      have hcond : (!(q.id == pid)) = true := by simp [hq]
      rw [hcond]
      simp only [if_true]
      rw [marginSum_cons, marginSum_cons, ih hnd.2 hmem']
      ring

theorem stateInv_init (config : MockConfig) : StateInv (initMockState config) := by
  refine ⟨?_, ?_, ?_⟩
  · simp [initMockState, initMockAccount, marginSum]
  · simp [initMockState]
  · intro p hp
    simp [initMockState] at hp

theorem stateInv_step (s : MockState) (op : MockOp) (h : StateInv s) :
    StateInv (mockStepTotal s op) := by
  obtain ⟨hm, hnd, hlt⟩ := h
  cases op with
  | openOp symbol side quantity leverage currentPrice atr atrMultiplier =>
    by_cases hc :
        quantity * currentPrice / jsOr leverage s.account.defaultLeverage >
          s.account.freeMargin
    · simp only [mockStepTotal, mockStep, openMarketOrder, if_pos hc, Option.map_none']
      exact ⟨hm, hnd, hlt⟩
    · simp only [mockStepTotal, mockStep, openMarketOrder, if_neg hc, Option.map_some']
      refine ⟨?_, ?_, ?_⟩
      · rw [marginSum_append, marginSum_cons, marginSum_nil, hm]
        simp
      · simp only [List.map_append, List.map_cons, List.map_nil]
        rw [List.nodup_append]
        refine ⟨hnd, List.nodup_singleton _, ?_⟩
        intro a ha hb
        simp only [List.mem_singleton] at hb
        obtain ⟨p, hp, hpa⟩ := List.mem_map.mp ha
        exact absurd (hpa.trans hb) (Nat.ne_of_lt (hlt p hp))
      · intro p hp
        rcases List.mem_append.mp hp with hp' | hp'
        · exact Nat.lt_succ_of_lt (hlt p hp')
        · simp only [List.mem_singleton] at hp'
          subst hp'
          exact Nat.lt_succ_self _
  | closeOp positionId reason exitPrice =>
    cases hf : s.activePositions.find? (fun p => p.id == positionId) with
    | none =>
      simp only [mockStepTotal, mockStep, closePosition, hf, Option.map_none']
      exact ⟨hm, hnd, hlt⟩
    | some p =>
      have hpmem : p ∈ s.activePositions := List.mem_of_find?_eq_some hf
      have hpid : p.id = positionId := by
        have hpred := List.find?_some hf
        simpa using hpred
      by_cases hst : p.status = PositionStatus.opened
      · simp only [mockStepTotal, mockStep, closePosition, hf, hst, ne_eq,
          not_true_eq_false, if_false, Option.map_some']
        refine ⟨?_, ?_, ?_⟩
        · rw [marginSum_filter_ne s.activePositions positionId p hnd hpmem hpid hst, hm]
        · exact List.Nodup.sublist (List.Sublist.map _ (List.filter_sublist _)) hnd
        · intro q hq
          exact hlt q (List.mem_of_mem_filter hq)
      · have hst' : (p.status ≠ PositionStatus.opened) := hst
        simp only [mockStepTotal, mockStep, closePosition, hf, ne_eq, if_pos hst',
          Option.map_none']
        exact ⟨hm, hnd, hlt⟩

theorem stateInv_scanl (ops : List MockOp) (t : MockState) (ht : StateInv t) :
    ∀ s ∈ List.scanl mockStepTotal t ops, StateInv s := by
  induction ops generalizing t with
  | nil =>
    intro s hs
    simp only [List.scanl_nil, List.mem_singleton] at hs
    exact hs ▸ ht
  | cons op rest ih =>
    intro s hs
    rw [List.scanl_cons] at hs
    rcases List.mem_cons.mp hs with rfl | hs'
    · exact ht
    · exact ih (mockStepTotal t op) (stateInv_step t op ht) s hs'

/-! ## Claim theorems -/

/-- Claim C1: for every sequence of successful position opens and closes,
each successful operation changes the account balance by exactly that
operation's recorded realized P&L minus the fees it charged
(`balance_after = balance_before - fees + realizedPnL`, with
`realizedPnL = 0` for an open), and every state reachable from a fresh
account keeps `margin` equal to the sum of `marginUsed` over the open
positions. -/
theorem C1_margin_accounting :
    (∀ (s : MockState) (op : MockOp) (s' : MockState) (r : OpReceipt),
        mockStep s op = some (s', r) →
        s'.account.balance = s.account.balance - r.fees + r.realizedPnL) ∧
    ∀ (config : MockConfig) (ops : List MockOp),
        ∀ s ∈ mockTrace config ops, s.account.margin = marginSum s.activePositions := by
  constructor
  · intro s op s' r h
    cases op with
    | openOp symbol side quantity leverage currentPrice atr atrMultiplier =>
      by_cases hc :
          quantity * currentPrice / jsOr leverage s.account.defaultLeverage >
            s.account.freeMargin
      · simp [mockStep, openMarketOrder, hc] at h
      · simp only [mockStep, openMarketOrder, if_neg hc, Option.map_some',
          Option.some.injEq] at h
        obtain ⟨rfl, rfl⟩ := Prod.mk.inj h.symm
        simp
    | closeOp positionId reason exitPrice =>
      cases hf : s.activePositions.find? (fun p => p.id == positionId) with
      | none => simp [mockStep, closePosition, hf] at h
      | some p =>
        by_cases hst : p.status = PositionStatus.opened
        · simp only [mockStep, closePosition, hf, hst, ne_eq, not_true_eq_false,
            if_false, Option.map_some', Option.some.injEq] at h
          obtain ⟨rfl, rfl⟩ := Prod.mk.inj h.symm
          simp
          ring
        · have hst' : (p.status ≠ PositionStatus.opened) := hst
          simp [mockStep, closePosition, hf, if_pos hst'] at h
  · intro config ops s hs
    exact (stateInv_scanl ops _ (stateInv_init config) s hs).1

/-- Witness for C1: the demo open (long 1 BTCUSDT at 50000, leverage 10)
succeeds, debits the 20 entry fee from the balance, and the resulting
state carries margin 5000 equal to the open position's `marginUsed`. -/
theorem C1_margin_accounting_witness :
    (demoState1.account.balance =
        demoState0.account.balance - demoOpenRcpt.fees + demoOpenRcpt.realizedPnL) ∧
    demoState1.account.margin = marginSum demoState1.activePositions := by
  have hstep : mockStep demoState0 demoOpen = some (demoState1, demoOpenRcpt) := by
    rw [demoState1, mockStepTotal]
    norm_num [mockStep, openMarketOrder, demoState0, demoOpen, demoCfg, initMockState,
      initMockAccount, jsOr, jsOrBool, applySlippage, calculateFee, calculateATRStopLoss,
      demoOpenRcpt]
  have hmem : demoState1 ∈ mockTrace demoCfg [demoOpen] := by
    simp [mockTrace, demoState1, demoState0]
  exact ⟨C1_margin_accounting.1 demoState0 demoOpen demoState1 demoOpenRcpt hstep,
    C1_margin_accounting.2 demoCfg [demoOpen] demoState1 hmem⟩

/-- Claim C10: the account initializer evaluates
`config.fees?.enabled || true` and `config.slippage?.enabled || true`, so
both simulation flags are forced on for every configuration; consequently
`applySlippage` always shifts the execution price directionally and
`calculateFee` always charges `notional * taker / 100`. -/
theorem C10_fees_slippage_forced (config : MockConfig) (price notional : ℚ) (side : Side) :
    (initMockAccount config).fees.enabled = true ∧
    (initMockAccount config).slippage.enabled = true ∧
    applySlippage (initMockAccount config) price side =
      (match side with
       | Side.long => price * (1 + (initMockAccount config).slippage.percentage / 100)
       | Side.short => price * (1 - (initMockAccount config).slippage.percentage / 100)) ∧
    calculateFee (initMockAccount config) notional OrderKind.taker =
      notional * ((initMockAccount config).fees.taker / 100) := by
  have hf : (initMockAccount config).fees.enabled = true := jsOrBool_true _
  have hs : (initMockAccount config).slippage.enabled = true := jsOrBool_true _
  refine ⟨hf, hs, ?_, ?_⟩
  · cases side <;> simp [applySlippage, hs]
  · simp [calculateFee, hf]

/-- Claim C2 (amended): closing a position computes the gross P&L through
`calculatePositionPnL` at the slipped execution price — (exit − entry) ×
size for a long, (entry − exit) × size for a short, independent of
leverage — and records a net realized P&L equal to the gross P&L minus
the exit fee only; the entry fee, already debited from the balance at
open time, is not subtracted from the recorded realized P&L. -/
theorem C2_close_pnl (s : MockState) (positionId : ℕ) (reason : String) (exitPriceRaw : ℚ)
    (p : Position) (res : CloseResult)
    (hf : s.activePositions.find? (fun q => q.id == positionId) = some p)
    (hres : closePosition s positionId reason exitPriceRaw = some res) :
    (res.position.realizedPnL =
      calculatePositionPnL p (applySlippage s.account exitPriceRaw p.side.opposite) -
        res.exitFee) ∧
    (res.exitFee =
      calculateFee s.account
        (p.size * applySlippage s.account exitPriceRaw p.side.opposite) OrderKind.taker) ∧
    (∀ (q : Position) (price l : ℚ),
        calculatePositionPnL { q with leverage := l } price = calculatePositionPnL q price) ∧
    (∀ (q : Position) (price : ℚ), q.side = Side.long →
        calculatePositionPnL q price = (price - q.entryPrice) * q.size) ∧
    (∀ (q : Position) (price : ℚ), q.side = Side.short →
        calculatePositionPnL q price = (q.entryPrice - price) * q.size) := by
  have hfields :
      res.position.realizedPnL =
        calculatePositionPnL p (applySlippage s.account exitPriceRaw p.side.opposite) -
          calculateFee s.account
            (p.size * applySlippage s.account exitPriceRaw p.side.opposite) OrderKind.taker ∧
      res.exitFee =
        calculateFee s.account
          (p.size * applySlippage s.account exitPriceRaw p.side.opposite) OrderKind.taker := by
    by_cases hst : p.status = PositionStatus.opened
    · simp only [closePosition, hf, hst, ne_eq, not_true_eq_false, if_false,
        Option.some.injEq] at hres
      rw [← hres]
      exact ⟨rfl, rfl⟩
    · have hst' : (p.status ≠ PositionStatus.opened) := hst
      simp [closePosition, hf, if_pos hst'] at hres
  refine ⟨by rw [hfields.1, hfields.2], hfields.2, ?_, ?_, ?_⟩
  · intro q price l
    cases hside : q.side <;> simp [calculatePositionPnL, hside]
  · intro q price hside
    simp [calculatePositionPnL, hside]
  · intro q price hside
    simp [calculatePositionPnL, hside]

/-- Witness for C2: the demo close at raw exit 52000 satisfies the
amended accounting, with gross 1898 and exit fee 20.7792. -/
theorem C2_close_pnl_witness :
    demoCloseRes.position.realizedPnL =
      calculatePositionPnL demoOpenPos
          (applySlippage demoState1.account 52000 demoOpenPos.side.opposite) -
        demoCloseRes.exitFee := by
  have hf : demoState1.activePositions.find? (fun q => q.id == 0) = some demoOpenPos := by
    rw [demoOpenPos, demoState1, mockStepTotal]
    norm_num [mockStep, openMarketOrder, demoState0, demoOpen, demoCfg, initMockState,
      initMockAccount, jsOr, jsOrBool, applySlippage, calculateFee, calculateATRStopLoss,
      List.find?, dummyPosition]
  have hres : closePosition demoState1 0 "manual" 52000 = some demoCloseRes := by
    rw [demoCloseRes]
    norm_num [closePosition, demoState1, mockStepTotal, mockStep, openMarketOrder,
      demoState0, demoOpen, demoCfg, initMockState, initMockAccount, jsOr, jsOrBool,
      applySlippage, calculateFee, calculateATRStopLoss, List.find?, dummyCloseRes,
      dummyPosition, calculatePositionPnL, Side.opposite, getCurrentUnrealizedPnL,
      demoOpenPos]
  exact (C2_close_pnl demoState1 0 "manual" 52000 demoOpenPos demoCloseRes hf hres).1

/-- Counterexample for claim C2 as stated: closing the demo position
(whose entry fee was 20) at raw exit 52000 records a realized P&L of
1877.2208 = gross (1898) − exit fee (20.7792); the spec's value
gross − entryFee − exitFee = 1857.2208 differs. -/
theorem C2_counterexample :
    closePosition demoState1 0 "manual" 52000 = some demoCloseRes ∧
    demoCloseRes.position.fees = 20 ∧
    demoCloseRes.exitFee = 20.7792 ∧
    calculatePositionPnL demoOpenPos 51948 = 1898 ∧
    demoCloseRes.position.realizedPnL = 1877.2208 ∧
    demoCloseRes.position.realizedPnL ≠
      calculatePositionPnL demoOpenPos 51948 - demoCloseRes.position.fees -
        demoCloseRes.exitFee := by
  refine ⟨?_, ?_, ?_, ?_, ?_, ?_⟩ <;>
    norm_num [closePosition, demoCloseRes, dummyCloseRes, demoState1, mockStepTotal,
      mockStep, openMarketOrder, demoState0, demoOpen, demoCfg, initMockState,
      initMockAccount, jsOr, jsOrBool, applySlippage, calculateFee, calculateATRStopLoss,
      List.find?, calculatePositionPnL, Side.opposite, getCurrentUnrealizedPnL,
      demoOpenPos, dummyPosition]

/-- Claim C3: both trailing engines only tighten stops.  The execution
engine's `updateTrailingStop` moves a long stop only strictly up and a
short stop only strictly down, leaving it unchanged whenever the
candidate is not strictly more favorable; the trailing-stop engine's
`shouldUpdateStopLoss` gate accepts a candidate only when it is strictly
above (long) / strictly below (short) the current stop, so
`updateActiveTrailing` never loosens the position's stop (its breakeven
path never writes the position's stop at all in the source). -/
theorem C3_stop_monotonic :
    (∀ (trailingPercent : ℚ) (p : Position) (price : ℚ),
        p.side = Side.long →
        p.stopLoss ≤ (updateTrailingStop trailingPercent p price).stopLoss ∧
        (¬proposedStopLong trailingPercent p price > p.stopLoss →
          (updateTrailingStop trailingPercent p price).stopLoss = p.stopLoss)) ∧
    (∀ (trailingPercent : ℚ) (p : Position) (price : ℚ),
        p.side = Side.short →
        (updateTrailingStop trailingPercent p price).stopLoss ≤ p.stopLoss ∧
        (¬proposedStopShort trailingPercent p price < p.stopLoss →
          (updateTrailingStop trailingPercent p price).stopLoss = p.stopLoss)) ∧
    (∀ (t : Trailing) (n oldStopLoss : ℚ),
        shouldUpdateStopLoss t (some n) oldStopLoss = true →
        (t.side = Side.long → n > oldStopLoss) ∧
        (t.side = Side.short → n < oldStopLoss)) ∧
    (∀ (volatility : ℚ) (t : Trailing) (pos : Position),
        t.currentStopLoss = pos.stopLoss →
        (t.side = Side.long →
          pos.stopLoss ≤ (updateActiveTrailing volatility t pos).2.stopLoss) ∧
        (t.side = Side.short →
          (updateActiveTrailing volatility t pos).2.stopLoss ≤ pos.stopLoss) ∧
        (shouldUpdateStopLoss t (calculateNewStopLoss volatility t) pos.stopLoss = false →
          (updateActiveTrailing volatility t pos).2.stopLoss = pos.stopLoss)) := by
  have hgate : ∀ (t : Trailing) (n oldStopLoss : ℚ),
      shouldUpdateStopLoss t (some n) oldStopLoss = true →
      (t.side = Side.long → n > oldStopLoss) ∧ (t.side = Side.short → n < oldStopLoss) := by
    intro t n oldStopLoss h
    by_cases h0 : n = 0
    · simp [shouldUpdateStopLoss, h0] at h
    · cases hside : t.side
      · simp only [shouldUpdateStopLoss, h0, if_false, hside, decide_eq_true_eq] at h
        refine ⟨fun _ => h, fun hs => ?_⟩
        cases hs
      · simp only [shouldUpdateStopLoss, h0, if_false, hside, decide_eq_true_eq] at h
        refine ⟨fun hs => ?_, fun _ => h⟩
        cases hs
  refine ⟨?_, ?_, hgate, ?_⟩
  · intro trailingPercent p price hside
    by_cases hen : p.trailingStop.enabled
    · have hstop : (updateTrailingStop trailingPercent p price).stopLoss =
          if proposedStopLong trailingPercent p price > p.stopLoss then
            proposedStopLong trailingPercent p price
          else p.stopLoss := by
        simp only [updateTrailingStop, hen, Bool.not_true, if_false, proposedStopLong]
        by_cases hup : calculatePositionPnL p price > p.trailingStop.highestProfit <;>
          simp only [hup, if_true, if_false, ite_true, ite_false, hside, gt_iff_lt] <;>
          by_cases hpr :
            p.stopLoss < price - |calculatePositionPnL p price| * (trailingPercent / 100) <;>
            simp [hpr]
      constructor
      · rw [hstop]
        by_cases hpr : proposedStopLong trailingPercent p price > p.stopLoss
        · rw [if_pos hpr]
          exact le_of_lt hpr
        · rw [if_neg hpr]
      · intro hnpr
        rw [hstop, if_neg hnpr]
    · simp [updateTrailingStop, hen]
  · intro trailingPercent p price hside
    by_cases hen : p.trailingStop.enabled
    · have hstop : (updateTrailingStop trailingPercent p price).stopLoss =
          if proposedStopShort trailingPercent p price < p.stopLoss then
            proposedStopShort trailingPercent p price
          else p.stopLoss := by
        simp only [updateTrailingStop, hen, Bool.not_true, if_false, proposedStopShort]
        by_cases hup : calculatePositionPnL p price > p.trailingStop.highestProfit <;>
          simp only [hup, if_true, if_false, ite_true, ite_false, hside, gt_iff_lt] <;>
          by_cases hpr :
            price + |calculatePositionPnL p price| * (trailingPercent / 100) < p.stopLoss <;>
            simp [hpr]
      constructor
      · rw [hstop]
        by_cases hpr : proposedStopShort trailingPercent p price < p.stopLoss
        · rw [if_pos hpr]
          exact le_of_lt hpr
        · rw [if_neg hpr]
      · intro hnpr
        rw [hstop, if_neg hnpr]
    · simp [updateTrailingStop, hen]
  · intro volatility t pos hsync
    by_cases hg :
        shouldUpdateStopLoss t (calculateNewStopLoss volatility t) t.currentStopLoss = true
    · cases hn : calculateNewStopLoss volatility t with
      | none => rw [hn] at hg; simp [shouldUpdateStopLoss] at hg
      | some n =>
        rw [hn] at hg
        have hmono := hgate t n t.currentStopLoss hg
        refine ⟨?_, ?_, ?_⟩
        · intro hside
          simp only [updateActiveTrailing, hn, hg, if_true, updatePositionStopLoss,
            Option.getD_some]
          rw [← hsync]
          exact le_of_lt (hmono.1 hside)
        · intro hside
          simp only [updateActiveTrailing, hn, hg, if_true, updatePositionStopLoss,
            Option.getD_some]
          rw [← hsync]
          exact le_of_lt (hmono.2 hside)
        · intro hfalse
          rw [hsync] at hg
          rw [hg] at hfalse
          cases hfalse
    · have hg' : shouldUpdateStopLoss t (calculateNewStopLoss volatility t)
          t.currentStopLoss = false := by
        cases hb : shouldUpdateStopLoss t (calculateNewStopLoss volatility t)
            t.currentStopLoss
        · rfl
        · exact absurd hb hg
      refine ⟨?_, ?_, ?_⟩ <;> intro _ <;>
        simp [updateActiveTrailing, hg']

/-- Witness for C3: at price 51000 the engine rule lifts the demo long
position's stop from 49000 to 50700, and the trailing-stop engine's gate
accepts 50000 over 49000 for a long context. -/
theorem C3_stop_monotonic_witness :
    (demoTrailPos.stopLoss ≤ (updateTrailingStop 30 demoTrailPos 51000).stopLoss) ∧
    ((50000 : ℚ) > 49000) ∧
    (demoTrailPos.stopLoss ≤ (updateActiveTrailing 2 demoTrailing demoTrailPos).2.stopLoss) := by
  refine ⟨(C3_stop_monotonic.1 30 demoTrailPos 51000 rfl).1,
    (C3_stop_monotonic.2.2.1 demoTrailing 50000 49000 ?_).1 rfl,
    (C3_stop_monotonic.2.2.2 2 demoTrailing demoTrailPos rfl).1 rfl⟩
  norm_num [shouldUpdateStopLoss, demoTrailing]

/-- Claim C4 (amended): `cancelValidation` sets a found session's state to
rejected unconditionally — a session cancelled while still validating is
rejected immediately (and hence observed within one poll iteration), but
a session that already reached a terminal state (confirmed, rejected or
expired) is likewise overwritten to rejected. -/
theorem C4_cancel_rejects (v : ValidationSession) :
    (cancelValidation v).state = ValidationState.rejected :=
  rfl

/-- Counterexample for claim C4 as stated: cancelling an already
confirmed (terminal) session moves it to rejected, so a terminal session
does not stay in its state under every operation. -/
theorem C4_counterexample :
    demoConfirmedSession.state = ValidationState.confirmed ∧
    (cancelValidation demoConfirmedSession).state = ValidationState.rejected ∧
    ValidationState.rejected ≠ ValidationState.confirmed := by
  refine ⟨rfl, rfl, ?_⟩
  intro h
  cases h

/-- Claim C5 evaluated at the failing input: with the day started at
10000 and the balance risen 11% to 11100, `updateRiskMetrics` records
`dailyLossPercent = 11` because it takes the absolute value of the daily
P&L percentage, so `checkEmergencyTriggers` fires `daily_loss_limit`
even though the balance has not declined at all (the decline is −11%,
far below the 10% limit). -/
theorem C5_gain_fires_daily_loss_limit :
    dailyLossPercent 10000 11100 = 11 ∧
    TriggerType.dailyLossLimit ∈
      checkEmergencyTriggers defaultRiskProfileCfg demoGainMetrics 10000 11100 ∧
    (10000 - 11100 : ℚ) / 10000 * 100 < 10 := by
  have habs : dailyLossPercent 10000 11100 = 11 := by
    rw [dailyLossPercent, abs_of_nonneg (by norm_num)]
    norm_num
  refine ⟨habs, ?_, by norm_num⟩
  norm_num [checkEmergencyTriggers, demoGainMetrics, defaultRiskProfileCfg, habs]

/-- Specification of a successful `closePosition` call: when the position
is found and still open (and the bounded history has room), the call
succeeds, removes exactly that id from the active map, archives the
closed position at the end of the trade history, and stamps it closed
with the given reason. -/
theorem closePosition_spec (t : MockState) (pid : ℕ) (reason : String) (price : ℚ)
    (p : Position)
    (hfind : t.activePositions.find? (fun q => q.id == pid) = some p)
    (hst : p.status = PositionStatus.opened)
    (hlen : t.tradeHistory.length + 1 ≤ 1000) :
    ∃ res, closePosition t pid reason price = some res ∧
      res.state.activePositions = t.activePositions.filter (fun q => !(q.id == pid)) ∧
      res.state.tradeHistory = t.tradeHistory ++ [res.position] ∧
      res.position.id = p.id ∧
      res.position.status = PositionStatus.closed ∧
      res.position.closeReason = some reason := by
  simp only [closePosition, hfind, hst, ne_eq, not_true_eq_false, if_false]
  refine ⟨_, rfl, rfl, ?_, rfl, rfl, rfl⟩
  simp only [List.length_append, List.length_singleton]
  rw [if_neg (by omega)]

/-- The close loop of the emergency actions, run over a snapshot that is
exactly the active map: every snapshot position is closed with reason
`'emergency_close'` and archived, and the active map drains to empty (as
long as every price is available and the bounded history has room). -/
theorem emergencyCloseAll_spec (priceOf : String → Option ℚ) (ps : List Position)
    (t : MockState) (hact : t.activePositions = ps)
    (hnd : (ps.map Position.id).Nodup)
    (hok : ∀ p ∈ ps, p.status = PositionStatus.opened ∧ (priceOf p.symbol).isSome)
    (hlen : t.tradeHistory.length + ps.length ≤ 1000) :
    (emergencyCloseAll priceOf ps t).activePositions = [] ∧
    t.tradeHistory ⊆ (emergencyCloseAll priceOf ps t).tradeHistory ∧
    ∀ p ∈ ps, ∃ q ∈ (emergencyCloseAll priceOf ps t).tradeHistory,
      q.id = p.id ∧ q.status = PositionStatus.closed ∧
      q.closeReason = some "emergency_close" := by
  induction ps generalizing t with
  | nil =>
    refine ⟨?_, ?_, ?_⟩
    · simpa [emergencyCloseAll] using hact
    · simp [emergencyCloseAll]
    · intro p hp
      cases hp
  | cons p rest ih =>
    obtain ⟨hst, hpr⟩ := hok p (List.mem_cons_self p rest)
    cases hprice : priceOf p.symbol with
    | none => rw [hprice] at hpr; cases hpr
    | some price =>
      simp only [List.map_cons, List.nodup_cons] at hnd
      have hfind : t.activePositions.find? (fun q => q.id == p.id) = some p := by
        rw [hact]
        simp [List.find?]
      obtain ⟨res, hcl, hact', hhist, hid, hstat, hreason⟩ :=
        closePosition_spec t p.id "emergency_close" price p hfind hst
          (by simp only [List.length_cons] at hlen; omega)
      have hstep : emergencyCloseAll priceOf (p :: rest) t =
          emergencyCloseAll priceOf rest res.state := by
        simp only [emergencyCloseAll, hprice, hcl]
      have hrest : res.state.activePositions = rest := by
        rw [hact', hact, List.filter_cons]
        have hcond : (!(p.id == p.id)) = false := by simp
        rw [hcond]
        simp only [Bool.false_eq_true, if_false]
        apply List.filter_eq_self.mpr
        intro r hr
        have hne : r.id ≠ p.id := by
          intro hr'
          exact hnd.1 (hr' ▸ List.mem_map_of_mem Position.id hr)
        simp [hne]
      have hlen' : res.state.tradeHistory.length + rest.length ≤ 1000 := by
        rw [hhist]
        simp only [List.length_append, List.length_singleton]
        simp only [List.length_cons] at hlen
        omega
      obtain ⟨hempty, hsub, hmem⟩ :=
        ih res.state hrest hnd.2 (fun q hq => hok q (List.mem_cons_of_mem p hq)) hlen'
      refine ⟨by rw [hstep]; exact hempty, ?_, ?_⟩
      · rw [hstep]
        intro x hx
        apply hsub
        rw [hhist]
        exact List.mem_append_left _ hx
      · intro q hq
        rcases List.mem_cons.mp hq with rfl | hq'
        · refine ⟨res.position, ?_, hid, hstat, hreason⟩
          rw [hstep]
          apply hsub
          rw [hhist]
          exact List.mem_append_right _ (List.mem_singleton_self _)
        · obtain ⟨w, hw, hwprops⟩ := hmem q hq'
          exact ⟨w, by rw [hstep]; exact hw, hwprops⟩

theorem handleEmergencyTrigger_mode (priceOf : String → Option ℚ) (s : RiskSys) :
    (handleEmergencyTrigger priceOf s).emergencyMode = true := by
  by_cases h : s.emergencyMode <;>
    simp [handleEmergencyTrigger, activateEmergencyMode, executeEmergencyActions, h]

theorem handleEmergencyTrigger_activations (priceOf : String → Option ℚ) (s : RiskSys) :
    (handleEmergencyTrigger priceOf s).activationEvents =
      s.activationEvents + (if s.emergencyMode then 0 else 1) := by
  by_cases h : s.emergencyMode <;>
    simp [handleEmergencyTrigger, activateEmergencyMode, executeEmergencyActions, h]

/-- Claim C6: repeated emergency triggers activate emergency mode at most
once.  A trigger arriving with emergency mode already active only records
a risk event and emits `emergency_triggered` — it leaves the trader, the
level and the activation count untouched.  The first trigger sets the
flag, forces the critical level, blocks new positions, emits exactly one
activation event, and closes every open position with close reason
`'emergency_close'`.  Over any series of triggers the activation runs at
most once. -/
theorem C6_emergency_idempotent :
    (∀ (priceOf : String → Option ℚ) (s : RiskSys), s.emergencyMode = true →
        handleEmergencyTrigger priceOf s =
          { s with
            riskEventCount := s.riskEventCount + 1
            triggeredEvents := s.triggeredEvents + 1 }) ∧
    (∀ (priceOf : String → Option ℚ) (s : RiskSys), s.emergencyMode = false →
        (handleEmergencyTrigger priceOf s).emergencyMode = true ∧
        (handleEmergencyTrigger priceOf s).level = RiskLevel.critical ∧
        (handleEmergencyTrigger priceOf s).maxPositions = 0 ∧
        (handleEmergencyTrigger priceOf s).activationEvents = s.activationEvents + 1) ∧
    (∀ (priceOf : String → Option ℚ) (s : RiskSys), s.emergencyMode = false →
        (s.trader.activePositions.map Position.id).Nodup →
        (∀ p ∈ s.trader.activePositions,
          p.status = PositionStatus.opened ∧ (priceOf p.symbol).isSome) →
        s.trader.tradeHistory.length + s.trader.activePositions.length ≤ 1000 →
        (handleEmergencyTrigger priceOf s).trader.activePositions = [] ∧
        ∀ p ∈ s.trader.activePositions,
          ∃ q ∈ (handleEmergencyTrigger priceOf s).trader.tradeHistory,
            q.id = p.id ∧ q.status = PositionStatus.closed ∧
            q.closeReason = some "emergency_close") ∧
    (∀ (priceOf : String → Option ℚ) (s : RiskSys) (n : ℕ),
        (runTriggers priceOf s n).activationEvents =
          s.activationEvents + (if s.emergencyMode then 0 else min n 1)) := by
  refine ⟨?_, ?_, ?_, ?_⟩
  · intro priceOf s h
    simp [handleEmergencyTrigger, h]
  · intro priceOf s h
    refine ⟨?_, ?_, ?_, ?_⟩ <;>
      simp [handleEmergencyTrigger, activateEmergencyMode, executeEmergencyActions, h]
  · intro priceOf s h hnd hok hlen
    have htr : (handleEmergencyTrigger priceOf s).trader =
        emergencyCloseAll priceOf s.trader.activePositions s.trader := by
      simp [handleEmergencyTrigger, activateEmergencyMode, executeEmergencyActions, h]
    obtain ⟨hempty, _, hmem⟩ :=
      emergencyCloseAll_spec priceOf s.trader.activePositions s.trader rfl hnd hok hlen
    rw [htr]
    exact ⟨hempty, hmem⟩
  · intro priceOf s n
    induction n generalizing s with
    | zero => simp [runTriggers]
    | succ n ih =>
      have hstep : runTriggers priceOf s (n + 1) =
          runTriggers priceOf (handleEmergencyTrigger priceOf s) n := rfl
      rw [hstep, ih, handleEmergencyTrigger_mode, handleEmergencyTrigger_activations]
      by_cases h : s.emergencyMode <;> simp [h]

/-- Witness for C6: the first trigger on the demo system (one open
position, emergency mode off) activates emergency mode and empties the
active position map. -/
theorem C6_emergency_idempotent_witness :
    (handleEmergencyTrigger demoPriceOf demoRiskSys).emergencyMode = true ∧
    (handleEmergencyTrigger demoPriceOf demoRiskSys).activationEvents =
      demoRiskSys.activationEvents + 1 ∧
    (handleEmergencyTrigger demoPriceOf demoRiskSys).trader.activePositions = [] := by
  have hnd : (demoRiskSys.trader.activePositions.map Position.id).Nodup := by
    rw [demoRiskSys, demoState1, mockStepTotal]
    norm_num [mockStep, openMarketOrder, demoState0, demoOpen, demoCfg, initMockState,
      initMockAccount, jsOr, jsOrBool, applySlippage, calculateFee, calculateATRStopLoss]
  have hok : ∀ p ∈ demoRiskSys.trader.activePositions,
      p.status = PositionStatus.opened ∧ (demoPriceOf p.symbol).isSome := by
    rw [demoRiskSys, demoState1, mockStepTotal]
    norm_num [mockStep, openMarketOrder, demoState0, demoOpen, demoCfg, initMockState,
      initMockAccount, jsOr, jsOrBool, applySlippage, calculateFee, calculateATRStopLoss,
      demoPriceOf]
  have hlen : demoRiskSys.trader.tradeHistory.length +
      demoRiskSys.trader.activePositions.length ≤ 1000 := by
    rw [demoRiskSys, demoState1, mockStepTotal]
    norm_num [mockStep, openMarketOrder, demoState0, demoOpen, demoCfg, initMockState,
      initMockAccount, jsOr, jsOrBool, applySlippage, calculateFee, calculateATRStopLoss]
  exact ⟨(C6_emergency_idempotent.2.1 demoPriceOf demoRiskSys rfl).1,
    (C6_emergency_idempotent.2.1 demoPriceOf demoRiskSys rfl).2.2.2,
    (C6_emergency_idempotent.2.2.1 demoPriceOf demoRiskSys rfl hnd hok hlen).1⟩

/-- Counterexample for claim C7 as stated: with identical (all-zero)
metrics the computed level differs depending on the emergency-mode flag —
low without it, critical under the override — so the level is not a
function of the three metrics alone. -/
theorem C7_counterexample :
    calculateCurrentRiskLevel defaultRiskThresholds false zeroMetrics = RiskLevel.low ∧
    calculateCurrentRiskLevel defaultRiskThresholds true zeroMetrics = RiskLevel.critical ∧
    RiskLevel.low ≠ RiskLevel.critical := by
  refine ⟨?_, ?_, ?_⟩
  · norm_num [calculateCurrentRiskLevel, defaultRiskThresholds, setupRiskLimits,
      zeroMetrics, jsCeil]
  · simp [calculateCurrentRiskLevel]
  · intro h
    cases h

/-- Claim C7 (amended): the computed risk level is a pure function of the
metrics together with the emergency-mode flag, and, the flag being fixed,
it depends only on which side of each per-level threshold the daily loss
percentage, the drawdown percentage and the open-position count lie: two
metric bundles on the same side of every threshold yield the same
level. -/
theorem C7_level_threshold_determined (th : RiskThresholds) (e : Bool)
    (m1 m2 : RiskMetricsCur)
    (h1 : m1.dailyLossPercent ≥ th.critical.dailyLoss ↔
      m2.dailyLossPercent ≥ th.critical.dailyLoss)
    (h2 : m1.drawdownPercent ≥ th.critical.drawdown ↔
      m2.drawdownPercent ≥ th.critical.drawdown)
    (h3 : m1.dailyLossPercent ≥ th.high.dailyLoss ↔ m2.dailyLossPercent ≥ th.high.dailyLoss)
    (h4 : m1.drawdownPercent ≥ th.high.drawdown ↔ m2.drawdownPercent ≥ th.high.drawdown)
    (h5 : m1.activePositions ≥ th.high.positions ↔ m2.activePositions ≥ th.high.positions)
    (h6 : m1.dailyLossPercent ≥ th.medium.dailyLoss ↔
      m2.dailyLossPercent ≥ th.medium.dailyLoss)
    (h7 : m1.drawdownPercent ≥ th.medium.drawdown ↔
      m2.drawdownPercent ≥ th.medium.drawdown)
    (h8 : m1.activePositions ≥ th.medium.positions ↔
      m2.activePositions ≥ th.medium.positions) :
    calculateCurrentRiskLevel th e m1 = calculateCurrentRiskLevel th e m2 := by
  simp only [calculateCurrentRiskLevel, h1, h2, h3, h4, h5, h6, h7, h8]

/-- Witness for C7: all-zero metrics and a 1% daily loss lie on the same
side of every default threshold, so the amended claim applies and the
levels agree. -/
theorem C7_level_threshold_determined_witness :
    calculateCurrentRiskLevel defaultRiskThresholds false zeroMetrics =
      calculateCurrentRiskLevel defaultRiskThresholds false demoSmallLossMetrics := by
  apply C7_level_threshold_determined <;>
    norm_num [defaultRiskThresholds, setupRiskLimits, zeroMetrics, demoSmallLossMetrics,
      jsCeil]

/-- The 1h poll interval is 5 minutes. -/
theorem interval1h_eq : getTimeframeCheckInterval "1h" = 5 * 60 * 1000 := by
  simp [getTimeframeCheckInterval]

/-- The 15m poll interval is 1 minute. -/
theorem interval15m_eq : getTimeframeCheckInterval "15m" = 60 * 1000 := by
  simp [getTimeframeCheckInterval]

/-- Shape of a sequential run whose 4h stage confirmed. -/
theorem execSeq_true_eq (polls1h polls15m : ℕ → Bool) :
    executeSequentialValidation true polls1h polls15m =
      (if !(monitorTimeframeWindow (4 * 60 * 60 * 1000) (5 * 60 * 1000) polls1h).1 then
        { state := .rejected, count4h := 1,
          polls1h := (monitorTimeframeWindow (4 * 60 * 60 * 1000) (5 * 60 * 1000) polls1h).2,
          polls15m := 0, windows := [("1h", 4 * 60 * 60 * 1000, 5 * 60 * 1000)] }
      else
        { state :=
            if (monitorTimeframeWindow (60 * 60 * 1000) (60 * 1000) polls15m).1 then
              ValidationState.confirmed
            else ValidationState.rejected
          count4h := 1
          polls1h := (monitorTimeframeWindow (4 * 60 * 60 * 1000) (5 * 60 * 1000) polls1h).2
          polls15m := (monitorTimeframeWindow (60 * 60 * 1000) (60 * 1000) polls15m).2
          windows :=
            [("1h", 4 * 60 * 60 * 1000, 5 * 60 * 1000),
             ("15m", 60 * 60 * 1000, 60 * 1000)] }) := by
  simp only [executeSequentialValidation, interval1h_eq, interval15m_eq]
  norm_num

/-- Claim C8: sequential validation evaluates the 4h stage exactly once
and immediately; a 4h failure rejects the session without opening any
monitoring window; a 4h confirmation opens the 1h window (4 hours,
5-minute polls) and, only if that window confirms, the 15m window
(1 hour, 1-minute polls), in that order; the session is confirmed exactly
when the 4h stage and both windows confirm. -/
theorem C8_sequential_validation (check4h : Bool) (polls1h polls15m : ℕ → Bool) :
    (executeSequentialValidation check4h polls1h polls15m).count4h = 1 ∧
    (check4h = false →
      executeSequentialValidation check4h polls1h polls15m =
        { state := .rejected, count4h := 1, polls1h := 0, polls15m := 0, windows := [] }) ∧
    (check4h = true →
      (monitorTimeframeWindow (4 * 60 * 60 * 1000) (5 * 60 * 1000) polls1h).1 = false →
      (executeSequentialValidation check4h polls1h polls15m).state =
          ValidationState.rejected ∧
      (executeSequentialValidation check4h polls1h polls15m).polls15m = 0 ∧
      (executeSequentialValidation check4h polls1h polls15m).windows =
        [("1h", 4 * 60 * 60 * 1000, 5 * 60 * 1000)]) ∧
    (check4h = true →
      (monitorTimeframeWindow (4 * 60 * 60 * 1000) (5 * 60 * 1000) polls1h).1 = true →
      (executeSequentialValidation check4h polls1h polls15m).windows =
        [("1h", 4 * 60 * 60 * 1000, 5 * 60 * 1000),
         ("15m", 60 * 60 * 1000, 60 * 1000)]) ∧
    ((executeSequentialValidation check4h polls1h polls15m).state =
        ValidationState.confirmed ↔
      check4h = true ∧
      (monitorTimeframeWindow (4 * 60 * 60 * 1000) (5 * 60 * 1000) polls1h).1 = true ∧
      (monitorTimeframeWindow (60 * 60 * 1000) (60 * 1000) polls15m).1 = true) := by
  cases check4h with
  | false =>
    refine ⟨rfl, fun _ => rfl, ?_, ?_, ?_⟩
    · intro h
      cases h
    · intro h
      cases h
    · simp [executeSequentialValidation]
  | true =>
    rw [execSeq_true_eq]
    cases hw1 : (monitorTimeframeWindow (4 * 60 * 60 * 1000) (5 * 60 * 1000) polls1h).1 with
    | false =>
      refine ⟨rfl, ?_, fun _ _ => ⟨rfl, rfl, rfl⟩, ?_, ?_⟩
      · intro h
        cases h
      · intro _ h
        cases h
      · simp
    | true =>
      cases hw15 : (monitorTimeframeWindow (60 * 60 * 1000) (60 * 1000) polls15m).1 with
      | false =>
        refine ⟨rfl, ?_, ?_, fun _ _ => rfl, ?_⟩
        · intro h
          cases h
        · intro _ h
          cases h
        · simp
      | true =>
        refine ⟨rfl, ?_, ?_, fun _ _ => rfl, ?_⟩
        · intro h
          cases h
        · intro _ h
          cases h
        · simp

/-- Witness for C8: with an immediately confirming 4h stage and windows
whose first poll confirms, the session is confirmed after opening the 1h
and 15m windows in order. -/
theorem C8_sequential_validation_witness :
    (executeSequentialValidation true (fun _ => true) (fun _ => true)).count4h = 1 ∧
    (executeSequentialValidation true (fun _ => true) (fun _ => true)).windows =
      [("1h", 4 * 60 * 60 * 1000, 5 * 60 * 1000), ("15m", 60 * 60 * 1000, 60 * 1000)] ∧
    (executeSequentialValidation true (fun _ => true) (fun _ => true)).state =
      ValidationState.confirmed := by
  have hmon1 :
      (monitorTimeframeWindow (4 * 60 * 60 * 1000) (5 * 60 * 1000) fun _ => true).1 =
        true := by
    norm_num [monitorTimeframeWindow, monitorPollCount, monitorWindowGo]
  have hmon15 :
      (monitorTimeframeWindow (60 * 60 * 1000) (60 * 1000) fun _ => true).1 = true := by
    norm_num [monitorTimeframeWindow, monitorPollCount, monitorWindowGo]
  refine ⟨(C8_sequential_validation true (fun _ => true) (fun _ => true)).1,
    (C8_sequential_validation true (fun _ => true) (fun _ => true)).2.2.2.1 rfl hmon1,
    (C8_sequential_validation true (fun _ => true) (fun _ => true)).2.2.2.2.mpr
      ⟨rfl, hmon1, hmon15⟩⟩

/-- The analyzer yields an all-empty per-timeframe analysis on empty
readings. -/
theorem analyzeTimeframe_empty (th : ℚ) :
    analyzeTimeframe th emptyReadings =
      { score := 0, signal := .neutral, strength := .weak, hasNadaraya := false,
        hasRSI := false, hasMA := false } := by
  norm_num [analyzeTimeframe, emptyReadings, scoreStrength]

/-- Counterexample for claim C9 as stated: with a valid symbol but missing
market data, `analyzeSymbol` returns `null` — no Signal at all — instead
of a neutral zero-confidence recommendation. -/
theorem C9_counterexample :
    ("BTCUSDT" : String) ≠ "" ∧ analyzeSymbol "BTCUSDT" none 1 1 1 = none := by
  refine ⟨by decide, by simp [analyzeSymbol]⟩

/-- Claim C9 (amended): `analyzeSymbol` returns `null` (no Signal)
whenever the market data argument is missing; whenever the symbol is
non-empty and market data is present it does produce an analysis, and if
the indicator readings are all absent (insufficient history) the analysis
is the neutral recommendation with confidence 0. -/
theorem C9_neutral_on_insufficient :
    (∀ (symbol : String) (th4 th1 th15 : ℚ),
        analyzeSymbol symbol none th4 th1 th15 = none) ∧
    (∀ (symbol : String) (md : MultiReadings) (th4 th1 th15 : ℚ), symbol ≠ "" →
        (analyzeSymbol symbol (some md) th4 th1 th15).isSome = true) ∧
    (∀ (symbol : String) (th4 th1 th15 : ℚ), symbol ≠ "" →
        analyzeSymbol symbol (some emptyMulti) th4 th1 th15 =
          some
            { recommendation := .neutral, confidence := 0,
              overall :=
                { signal := .neutral, strength := .weak, score := 0,
                  activeTimeframes := 0 } }) := by
  refine ⟨?_, ?_, ?_⟩
  · intro symbol th4 th1 th15
    simp [analyzeSymbol]
  · intro symbol md th4 th1 th15 h
    simp [analyzeSymbol, h]
  · intro symbol th4 th1 th15 h
    norm_num [analyzeSymbol, h, emptyMulti, analyzeTimeframe_empty, calculateOverallSignal,
      calculateConfidence, strengthScore, indicatorCount]
    intro hcontra
    cases hcontra

/-- Witness for C9: at symbol BTCUSDT the amended behaviors hold. -/
theorem C9_neutral_on_insufficient_witness :
    (analyzeSymbol "BTCUSDT" (some emptyMulti) 1 1 1).isSome = true ∧
    analyzeSymbol "BTCUSDT" (some emptyMulti) 1 1 1 =
      some
        { recommendation := .neutral, confidence := 0,
          overall :=
            { signal := .neutral, strength := .weak, score := 0, activeTimeframes := 0 } } := by
  refine ⟨C9_neutral_on_insufficient.2.1 "BTCUSDT" emptyMulti 1 1 1 (by decide),
    C9_neutral_on_insufficient.2.2 "BTCUSDT" 1 1 1 (by decide)⟩

end Trading
